import Mathlib

/-!
# Authentication & Session Control core — shallow embedding

A shallow embedding of the authentication subsystem of the
`scriptassist-nestjs-exercise` repository:

* `src/common/utils/time.util.ts` (`parseDurationToSeconds`)
* `src/modules/auth/repositories/refresh-token.repository.ts`
* `src/modules/auth/services/token.service.ts`
* `src/modules/auth/services/auth.service.ts`
* `src/modules/users/...` (`UsersService`, `User` entity hooks)

Conventions of the embedding:

* All times are whole epoch seconds (`Nat`).  JavaScript `Date` values and
  `Math.floor(Date.now() / 1000)` collapse to the single `now` field of the
  state.
* JWTs are modelled symbolically: a signed token is a constructor carrying its
  payload plus the secret it was signed with; `jwt.decode` reads the payload of
  any structurally well-formed token without checking the secret, while
  verification checks the secret and the `exp` claim.  Two signs of the same
  payload with the same secret produce the same token value, exactly as the
  deterministic HMAC signature of `jsonwebtoken` does.  A `malformed` token is
  any string that is not a structurally valid JWT; `jwt.decode` returns `null`
  on it.
* `bcrypt` is modelled as a deterministic injective hash with a decidable
  compare; only "matches / does not match" is relevant to the code under
  verification.
* The Redis cache is an association list from keys to values with absolute
  expiry timestamps; `INCR` / `EXPIRE` / `GET` / `SETEX` follow the Redis
  semantics used by the code.  A `redisUp` flag models cache availability so
  that propagation of cache failures can be stated.
* Thrown JavaScript exceptions are an `Except` error value; a raised
  `TypeError` (e.g. reading a property of `null`) is `AuthError.jsTypeError`.
  Operations return `Except AuthError α × AuthState` so that state mutations
  performed before an exception are kept, as they are in the real system.
-/

deriving instance DecidableEq for Except

namespace AuthCore

/-- Error taxonomy: the exceptions the embedded code can raise.
`invalidCredentials`, `accountLocked`, `invalidToken` are the
`UnauthorizedException`s built from `AUTH_ERRORS`; `duplicateEmail` is the
CONFLICT `HttpException` of `UsersService.create`; `notFound` is the
`NotFoundException` of `UsersService.findOne`; `jsTypeError` is a runtime
`TypeError`; `cacheError` is a failure thrown by the Redis client. -/
inductive AuthError where
  | invalidCredentials
  | accountLocked
  | invalidToken
  | duplicateEmail
  | notFound
  | jsTypeError
  | cacheError
deriving DecidableEq, Repr

/-- A row of the `users` table (`User` entity): `password` stores the bcrypt
hash as persisted. -/
structure User where
  id : String
  email : String
  name : String
  password : String
  role : String
deriving DecidableEq, Repr

/-- Payload of an access token (`TokenPayload` plus the claims `jsonwebtoken`
adds when signing): `jti = ""` models an absent/empty `jti` claim and
`exp = 0` an absent `exp` claim — both are falsy in JavaScript exactly when
they take these values. -/
structure AccessClaims where
  sub : String
  email : String
  role : String
  jti : String
  iat : Nat
  exp : Nat
deriving DecidableEq, Repr

/-- An access-token string: either a structurally valid JWT signed with some
secret, or a malformed string (including the empty string, `malformed ""`),
on which `jwt.decode` yields `null`. -/
inductive AccessToken where
  | signed (claims : AccessClaims) (secret : String)
  | malformed (raw : String)
deriving DecidableEq, Repr

/-- Payload of a refresh token (`RefreshTokenPayload`): the code signs
`{ sub, deviceId }` and `jsonwebtoken` adds `iat` and `exp`. -/
structure RefreshClaims where
  sub : String
  deviceId : String
  iat : Nat
  exp : Nat
deriving DecidableEq, Repr

/-- A refresh-token string: symbolic signed JWT or malformed string. -/
inductive RefreshToken where
  | signed (claims : RefreshClaims) (secret : String)
  | malformed (raw : String)
deriving DecidableEq, Repr

/-- A row of the `refresh_tokens` table (`RefreshToken` entity), with the
fields used by `RefreshTokenRepository` and `TokenService.generateRefreshToken`. -/
structure RefreshTokenRecord where
  token : RefreshToken
  userId : String
  deviceId : String
  expiresAt : Nat
  isRevoked : Bool
deriving DecidableEq, Repr

/-- A Redis value with an optional absolute expiry time (`none` = no TTL). -/
structure CacheEntry where
  value : String
  expiresAt : Option Nat
deriving DecidableEq, Repr

/-- The JWT configuration (`src/config/jwt.config.ts`): `secret` signs access
tokens (global `JwtModule` registration), `refreshTokenSecret` signs refresh
tokens. -/
structure Config where
  secret : String
  accessTokenExpiry : String
  refreshTokenExpiry : String
  refreshTokenSecret : String
deriving DecidableEq, Repr

/-- The combined mutable world: the `users` table, the `refresh_tokens` table,
the Redis cache, the current time in epoch seconds, a counter for fresh
UUIDs, and whether the Redis client is reachable. -/
structure AuthState where
  users : List User
  records : List RefreshTokenRecord
  cache : List (String × CacheEntry)
  now : Nat
  nextUuid : Nat
  redisUp : Bool
deriving DecidableEq, Repr

/-- The wire shape returned by `TokenService.generateTokens`
(`TokenResponseDto`). -/
structure TokenResponse where
  accessToken : AccessToken
  refreshToken : RefreshToken
  expiresIn : Int
  tokenType : String
deriving DecidableEq, Repr

/-! ## JavaScript numeric parsing (`parseInt(s, 10)`) -/

/-- Longest decimal-digit run at the start of `cs`, as a number, with the rest. -/
def digitsValue : List Char → Option Nat → Option Nat
  | [], acc => acc
  | c :: cs, acc =>
    if c.isDigit then
      digitsValue cs (some ((acc.getD 0) * 10 + (c.toNat - '0'.toNat)))
    else acc

/-- Model of JavaScript `parseInt(s, 10)`: skip leading whitespace, read an
optional sign, then the longest run of decimal digits; `none` models `NaN`
(no digits).  Digits after a non-digit are ignored, as in JavaScript. -/
def jsParseInt (s : String) : Option Int :=
  let cs := s.data.dropWhile (fun c => c = ' ' ∨ c = '\t' ∨ c = '\n')
  match cs with
  | '-' :: rest => (digitsValue rest none).map (fun n => -(n : Int))
  | '+' :: rest => (digitsValue rest none).map (fun n => (n : Int))
  | rest => (digitsValue rest none).map (fun n => (n : Int))

/-- JavaScript `x >= y` where `x` may be `NaN` (`none`): `NaN >= y` is false. -/
def jsGe (x : Option Int) (y : Int) : Bool :=
  match x with
  | some n => y ≤ n
  | none => false

/-! ## `src/common/utils/time.util.ts` -/

/-- `parseDurationToSeconds(duration, defaultSeconds)`: empty string, `NaN`
numeric part, or unrecognized unit fall back to `defaultSeconds`; otherwise
the numeric prefix times the unit multiplier (s/m/h/d/w). -/
def parseDurationToSeconds (duration : String) (defaultSeconds : Int) : Int :=
  if duration = "" then defaultSeconds
  else
    let unit := duration.takeRight 1
    let value := jsParseInt (duration.dropRight 1)
    match value with
    | none => defaultSeconds
    | some v =>
      if unit = "s" then v
      else if unit = "m" then v * 60
      else if unit = "h" then v * 60 * 60
      else if unit = "d" then v * 60 * 60 * 24
      else if unit = "w" then v * 60 * 60 * 24 * 7
      else defaultSeconds

/-- Seconds of validity `jsonwebtoken` grants for an `expiresIn` duration
string.  Models the `ms` library on the duration forms the configuration uses
(`<digits><s|m|h|d|w>`); the unit tables of `ms` and `time.util.ts` agree on
these forms. -/
def msParseSeconds (s : String) : Int :=
  parseDurationToSeconds s 0

/-! ## bcrypt model -/

/-- Model of `bcrypt.hash` as a deterministic injective hash. -/
def bcryptHash (plain : String) : String :=
  "bcrypt$" ++ plain

/-- Model of `bcrypt.compare plain hash`. -/
def bcryptCompare (plain hash : String) : Bool :=
  bcryptHash plain = hash

/-! ## Redis model (`src/common/cache/redis.service.ts`)

Keys live in an association list; an entry whose `expiresAt` is `some t` is
gone once `now ≥ t`.  Every operation fails with `cacheError` when the client
is unreachable (`redisUp = false`). -/

/-- The live value of `key`, if present and not expired, at time `now`. -/
def cacheLookup (cache : List (String × CacheEntry)) (now : Nat) (key : String) :
    Option CacheEntry :=
  match cache.find? (fun p => p.1 = key) with
  | some p =>
    match p.2.expiresAt with
    | none => some p.2
    | some t => if now < t then some p.2 else none
  | none => none

/-- Store `entry` under `key`, replacing any previous entry. -/
def cacheStore (cache : List (String × CacheEntry)) (key : String)
    (entry : CacheEntry) : List (String × CacheEntry) :=
  (key, entry) :: cache.filter (fun p => p.1 ≠ key)

/-- `RedisService.get`. -/
def redisGet (s : AuthState) (key : String) : Except AuthError (Option String) :=
  if s.redisUp then .ok ((cacheLookup s.cache s.now key).map (fun e => e.value))
  else .error .cacheError

/-- `RedisService.increment` (Redis `INCR`): a missing or expired key is
created as `"1"` with no TTL; an existing key is bumped, keeping its TTL.
(The values this code stores under counter keys are always decimal numbers.) -/
def redisIncrement (s : AuthState) (key : String) :
    Except AuthError Int × AuthState :=
  if s.redisUp then
    match cacheLookup s.cache s.now key with
    | some e =>
      let n := ((jsParseInt e.value).getD 0) + 1
      (.ok n,
        { s with cache := cacheStore s.cache key { e with value := toString n } })
    | none =>
      (.ok 1, { s with cache := cacheStore s.cache key { value := "1", expiresAt := none } })
  else (.error .cacheError, s)

/-- `RedisService.expire` (Redis `EXPIRE`): sets the TTL of a live key;
a missing or expired key is untouched (Redis returns 0). -/
def redisExpire (s : AuthState) (key : String) (seconds : Nat) :
    Except AuthError Bool × AuthState :=
  if s.redisUp then
    match cacheLookup s.cache s.now key with
    | some e =>
      (.ok true,
        { s with cache := cacheStore s.cache key { e with expiresAt := some (s.now + seconds) } })
    | none => (.ok false, s)
  else (.error .cacheError, s)

/-- `RedisService.setEx` (Redis `SETEX`). -/
def redisSetEx (s : AuthState) (key value : String) (ttl : Nat) :
    Except AuthError Unit × AuthState :=
  if s.redisUp then
    (.ok (),
      { s with cache := cacheStore s.cache key { value := value, expiresAt := some (s.now + ttl) } })
  else (.error .cacheError, s)

/-! ## Users service (`src/modules/users/...`) -/

/-- `UsersService.findByEmail(email)`: `usersRepository.findOne({ where: { email } })`
— an exact (case-sensitive, Postgres `=`) match on the stored email. -/
def findByEmail (users : List User) (email : String) : Option User :=
  users.find? (fun u => u.email = email)

/-- `UsersService.findOne(id)`: throws `NotFoundException` when no user has
this id. -/
def usersFindOne (users : List User) (id : String) : Except AuthError User :=
  match users.find? (fun u => u.id = id) with
  | some u => .ok u
  | none => .error .notFound

/-- `UsersService.validatePassword(userId, password)`: refetches the user by
id and bcrypt-compares; `false` when the user is missing. -/
def validatePassword (users : List User) (userId pass : String) : Bool :=
  match users.find? (fun u => u.id = userId) with
  | some u => bcryptCompare pass u.password
  | none => false

/-- Registration data (`RegisterDto`, after DTO validation). -/
structure RegisterData where
  email : String
  name : String
  password : String
  deviceId : String
deriving DecidableEq, Repr

/-- `UsersService.create`: rejects an exact-match duplicate email with a
CONFLICT error, bcrypt-hashes the password, and saves.  Saving fires the
`@BeforeInsert` hook `User.prepareData`, which hashes the (already hashed)
password **again** and lowercases the email.  `role` defaults to `"user"`. -/
def usersCreate (s : AuthState) (dto : RegisterData) :
    Except AuthError User × AuthState :=
  match findByEmail s.users dto.email with
  | some _ => (.error .duplicateEmail, s)
  | none =>
    let hashed := bcryptHash dto.password
    -- User.prepareData (@BeforeInsert): re-hash the password, lowercase the email
    let u : User :=
      { id := "uuid-" ++ toString s.nextUuid
        email := dto.email.toLower
        name := dto.name
        password := bcryptHash hashed
        role := "user" }
    (.ok u, { s with users := s.users ++ [u], nextUuid := s.nextUuid + 1 })

/-! ## Refresh-token repository
(`src/modules/auth/repositories/refresh-token.repository.ts`) -/

/-- `RefreshTokenRepository.revokeToken(token)`:
`update({ token }, { isRevoked: true })`. -/
def revokeToken (records : List RefreshTokenRecord) (token : RefreshToken) :
    List RefreshTokenRecord :=
  records.map (fun r => if r.token = token then { r with isRevoked := true } else r)

/-- `RefreshTokenRepository.revokeForDevice(userId, deviceId)`:
`update({ userId, deviceId }, { isRevoked: true })`. -/
def revokeForDevice (records : List RefreshTokenRecord) (userId deviceId : String) :
    List RefreshTokenRecord :=
  records.map (fun r =>
    if r.userId = userId ∧ r.deviceId = deviceId then { r with isRevoked := true } else r)

/-- `RefreshTokenRepository.findValidToken(token, userId, deviceId)`:
`findOne` with `isRevoked: false` and `expiresAt: MoreThan(new Date())`. -/
def findValidToken (records : List RefreshTokenRecord) (now : Nat)
    (token : RefreshToken) (userId deviceId : String) : Option RefreshTokenRecord :=
  records.find? (fun r =>
    r.token = token ∧ r.userId = userId ∧ r.deviceId = deviceId ∧
      r.isRevoked = false ∧ now < r.expiresAt)

/-! ## TokenService (`src/modules/auth/services/token.service.ts`) -/

/-- `jwtService.decode(token)`: reads the payload of any structurally valid
JWT without checking the signature; `null` (here `none`) on a malformed
string. -/
def decodeAccess : AccessToken → Option AccessClaims
  | .signed c _ => some c
  | .malformed _ => none

/-- `jwtService.verifyAsync(token, { secret: refreshTokenSecret })`: the
signature must use the refresh secret and the token must not be expired
(`jsonwebtoken` rejects once the clock reaches `exp`). -/
def verifyRefresh (cfg : Config) (now : Nat) : RefreshToken → Option RefreshClaims
  | .signed c sec => if sec = cfg.refreshTokenSecret ∧ now < c.exp then some c else none
  | .malformed _ => none

/-- `TokenService.parseJwtExpiryToSeconds(expiry)`. -/
def parseJwtExpiryToSeconds (expiry : String) : Int :=
  parseDurationToSeconds expiry 900

/-- `TokenService.generateRefreshToken(userId, deviceId)`: revokes every
record of the device, signs a fresh refresh JWT (payload `{ sub, deviceId }`,
`iat` = now, `exp` from the configured refresh expiry), and persists a new
non-revoked record whose `expiresAt` comes from `parseDurationToSeconds`
with the 7-day default. -/
def generateRefreshToken (cfg : Config) (s : AuthState) (userId deviceId : String) :
    RefreshToken × AuthState :=
  let revoked := revokeForDevice s.records userId deviceId
  let expirySeconds := parseDurationToSeconds cfg.refreshTokenExpiry 604800
  let expiresAt := ((s.now : Int) + expirySeconds).toNat
  let refreshToken : RefreshToken :=
    .signed
      { sub := userId, deviceId := deviceId, iat := s.now
        exp := ((s.now : Int) + msParseSeconds cfg.refreshTokenExpiry).toNat }
      cfg.refreshTokenSecret
  let rec0 : RefreshTokenRecord :=
    { token := refreshToken, userId := userId, deviceId := deviceId
      expiresAt := expiresAt, isRevoked := false }
  (refreshToken, { s with records := revoked ++ [rec0] })

/-- `TokenService.generateTokens(user, deviceId)`: fresh `jti`, signed access
token (sub/email/role/jti), refresh token via `generateRefreshToken`, and
`expiresIn` = the parsed access expiry with default 900. -/
def generateTokens (cfg : Config) (s : AuthState) (user : User) (deviceId : String) :
    TokenResponse × AuthState :=
  let tokenId := "uuid-" ++ toString s.nextUuid
  let s1 := { s with nextUuid := s.nextUuid + 1 }
  let accessToken : AccessToken :=
    .signed
      { sub := user.id, email := user.email, role := user.role, jti := tokenId
        iat := s1.now
        exp := ((s1.now : Int) + msParseSeconds cfg.accessTokenExpiry).toNat }
      cfg.secret
  let (refreshToken, s2) := generateRefreshToken cfg s1 user.id deviceId
  let expiresIn := parseJwtExpiryToSeconds cfg.accessTokenExpiry
  ({ accessToken := accessToken, refreshToken := refreshToken
     expiresIn := expiresIn, tokenType := "Bearer" }, s2)

/-- `TokenService.refreshTokens(refreshToken, deviceId)`: verify signature and
expiry, check the payload device, look up the stored record (non-revoked,
unexpired), re-check record expiry, fetch the user (`UsersService.findOne`
**throws `NotFoundException` for a missing user**, so that exception
propagates and the subsequent `if (!user)` guard is unreachable), revoke the
old token, and issue a new pair. -/
def refreshTokens (cfg : Config) (s : AuthState) (refreshToken : RefreshToken)
    (deviceId : String) : Except AuthError TokenResponse × AuthState :=
  match verifyRefresh cfg s.now refreshToken with
  | none => (.error .invalidToken, s)
  | some payload =>
    if payload.deviceId ≠ deviceId then (.error .invalidToken, s)
    else
      match findValidToken s.records s.now refreshToken payload.sub deviceId with
      | none => (.error .invalidToken, s)
      | some storedToken =>
        if storedToken.expiresAt < s.now then (.error .invalidToken, s)
        else
          match usersFindOne s.users payload.sub with
          | .error e => (.error e, s)
          | .ok user =>
            let s1 := { s with records := revokeToken s.records refreshToken }
            let (pair, s2) := generateTokens cfg s1 user deviceId
            (.ok pair, s2)

/-- `TokenService.revokeRefreshTokensForDevice(userId, deviceId)`. -/
def revokeRefreshTokensForDevice (s : AuthState) (userId deviceId : String) : AuthState :=
  { s with records := revokeForDevice s.records userId deviceId }

/-! ## AuthService (`src/modules/auth/services/auth.service.ts`) -/

/-- The failed-attempt path of `AuthService.validateUser` (lines 26-37):
increment the per-email counter, refresh its 300-second TTL, read it back,
and report `AccountLocked` at 5 or more attempts, `InvalidCredentials`
otherwise (`parseInt(attempts ?? '0') >= 5` is false on `NaN`). -/
def recordFailedAttempt (s : AuthState) (email : String) :
    Except AuthError User × AuthState :=
  match redisIncrement s ("login:attempts:" ++ email) with
  | (.error e, s1) => (.error e, s1)
  | (.ok _, s1) =>
    match redisExpire s1 ("login:attempts:" ++ email) 300 with
    | (.error e, s2) => (.error e, s2)
    | (.ok _, s2) =>
      match redisGet s2 ("login:attempts:" ++ email) with
      | .error e => (.error e, s2)
      | .ok attempts =>
        if jsGe (jsParseInt (attempts.getD "0")) 5 then (.error .accountLocked, s2)
        else (.error .invalidCredentials, s2)

/-- `AuthService.validateUser(email, pass)`: look the user up by (exact)
email; on absent user or password mismatch take the failed-attempt path; the
counter is never consulted on the success path. -/
def validateUser (s : AuthState) (email pass : String) :
    Except AuthError User × AuthState :=
  match findByEmail s.users email with
  | none => recordFailedAttempt s email
  | some user =>
    if validatePassword s.users user.id pass then (.ok user, s)
    else recordFailedAttempt s email

/-- `AuthService.login(loginDto)`. -/
def login (cfg : Config) (s : AuthState) (email pass deviceId : String) :
    Except AuthError TokenResponse × AuthState :=
  match validateUser s email pass with
  | (.error e, s1) => (.error e, s1)
  | (.ok user, s1) =>
    let (pair, s2) := generateTokens cfg s1 user deviceId
    (.ok pair, s2)

/-- `AuthService.register(registerDto)`. -/
def register (cfg : Config) (s : AuthState) (dto : RegisterData) :
    Except AuthError TokenResponse × AuthState :=
  match usersCreate s dto with
  | (.error e, s1) => (.error e, s1)
  | (.ok user, s1) =>
    let (pair, s2) := generateTokens cfg s1 user dto.deviceId
    (.ok pair, s2)

/-- `AuthService.logout(userId, accessToken, deviceId)`: decodes the access
token — when `jwt.decode` yields `null` (garbled/empty token) the property
read `decoded.exp` raises a `TypeError` that propagates, before any
revocation.  Otherwise: if the token has a future `exp` and a truthy `jti`,
write the blacklist entry (an unguarded `await`, so a cache failure
propagates and skips revocation); finally revoke the device's refresh
tokens. -/
def logout (s : AuthState) (userId : String) (accessToken : AccessToken)
    (deviceId : String) : Except AuthError Unit × AuthState :=
  match decodeAccess accessToken with
  | none => (.error .jsTypeError, s)
  | some decoded =>
    let ttl : Int := if decoded.exp ≠ 0 then (decoded.exp : Int) - (s.now : Int) else 0
    if 0 < ttl ∧ decoded.jti ≠ "" then
      match redisSetEx s ("token:blacklisted:" ++ decoded.jti) "1" ttl.toNat with
      | (.error e, s1) => (.error e, s1)
      | (.ok _, s1) => (.ok (), revokeRefreshTokensForDevice s1 userId deviceId)
    else (.ok (), revokeRefreshTokensForDevice s userId deviceId)

/-- `AuthService.isTokenBlacklisted(token)`: a missing or undecodable token,
or one without a `jti`, is treated as blacklisted; otherwise the blacklist
key is read — the surrounding try/catch turns any cache failure into `true`
(fail-closed).  The JavaScript `!!value` coercion makes a present entry count
only when its value is non-empty. -/
def isTokenBlacklisted (s : AuthState) (token : AccessToken) : Bool :=
  match token with
  | .malformed _ => true
  | .signed c _ =>
    if c.jti = "" then true
    else
      match redisGet s ("token:blacklisted:" ++ c.jti) with
      | .error _ => true
      | .ok (some v) => v ≠ ""
      | .ok none => false

/-! ## Operation sequences over the auth core -/

/-- One inbound call to the public contract surface of `AuthService`. -/
inductive OpCall where
  | loginOp (email pass deviceId : String)
  | registerOp (dto : RegisterData)
  | refreshOp (token : RefreshToken) (deviceId : String)
  | logoutOp (userId : String) (token : AccessToken) (deviceId : String)
deriving DecidableEq, Repr

/-- The state after one call (the caller-visible result is dropped; state
mutations performed before an exception are kept, as in the real system). -/
def applyOp (cfg : Config) (s : AuthState) : OpCall → AuthState
  | .loginOp email pass deviceId => (login cfg s email pass deviceId).2
  | .registerOp dto => (register cfg s dto).2
  | .refreshOp token deviceId => (refreshTokens cfg s token deviceId).2
  | .logoutOp userId token deviceId => (logout s userId token deviceId).2

/-- The state after a sequence of calls. -/
def runOps (cfg : Config) (s : AuthState) (ops : List OpCall) : AuthState :=
  ops.foldl (applyOp cfg) s

/-- The non-revoked records bound to `(userId, deviceId)`. -/
def liveFor (records : List RefreshTokenRecord) (userId deviceId : String) :
    List RefreshTokenRecord :=
  records.filter (fun r => r.userId = userId ∧ r.deviceId = deviceId ∧ r.isRevoked = false)

/-- The per-device single-session invariant: at most one non-revoked record
per `(userId, deviceId)`. -/
def atMostOneLive (records : List RefreshTokenRecord) : Prop :=
  ∀ userId deviceId, (liveFor records userId deviceId).length ≤ 1

/-- Whether a call of the public surface succeeded. -/
def succeeded {α : Type} (r : Except AuthError α) : Bool :=
  match r with
  | .ok _ => true
  | .error _ => false

/-- The attempts value `validateUser` reads back on its failure path: the
counter after `INCR` and `EXPIRE`, as seen by `GET`. -/
def postIncrementAttempts (s : AuthState) (email : String) : Option String :=
  let key := "login:attempts:" ++ email
  let s1 := (redisIncrement s key).2
  let s2 := (redisExpire s1 key 300).2
  (cacheLookup s2.cache s2.now key).map (fun e => e.value)

/-! ## Concrete fixtures used by witnesses and counterexamples -/

/-- A JWT configuration with the defaults of `src/config/jwt.config.ts`
(expiry strings `15m` / `7d`). -/
def exCfg : Config :=
  { secret := "access-secret", accessTokenExpiry := "15m"
    refreshTokenExpiry := "7d", refreshTokenSecret := "refresh-secret" }

/-- A registered user whose stored email is lowercase (as `User.prepareData`
guarantees) and whose stored hash matches the plaintext `Password1`. -/
def exUser : User :=
  { id := "u1", email := "a@x.com", name := "Alice"
    password := bcryptHash "Password1", role := "user" }

/-- A refresh token for `exUser` on device `d1`, signed at second 1000 with
the configured refresh secret, valid for 7 days. -/
def exRt : RefreshToken :=
  .signed { sub := "u1", deviceId := "d1", iat := 1000, exp := 605800 } "refresh-secret"

/-- The stored record for `exRt`, non-revoked and unexpired at second 1000. -/
def exRec : RefreshTokenRecord :=
  { token := exRt, userId := "u1", deviceId := "d1", expiresAt := 605800, isRevoked := false }

/-- A refresh token for the same user and device signed 10 seconds earlier
than `exRt` (distinct `iat`, hence a distinct token value). -/
def exRtEarly : RefreshToken :=
  .signed { sub := "u1", deviceId := "d1", iat := 990, exp := 605790 } "refresh-secret"

/-- The stored record for `exRtEarly`. -/
def exRecEarly : RefreshTokenRecord :=
  { token := exRtEarly, userId := "u1", deviceId := "d1", expiresAt := 605790, isRevoked := false }

/-- An access token for `exUser` with a `jti` and a future `exp`
(now = 1000 < 1900 = exp). -/
def exAccess : AccessToken :=
  .signed { sub := "u1", email := "a@x.com", role := "user", jti := "j1"
            iat := 1000, exp := 1900 } "access-secret"

/-- Base world at second 1000: one user, one live refresh-token record,
empty cache, Redis reachable. -/
def exBase : AuthState :=
  { users := [exUser], records := [exRec], cache := [], now := 1000
    nextUuid := 0, redisUp := true }

/-- The same world with the Redis client unreachable. -/
def exBaseDown : AuthState :=
  { users := [exUser], records := [exRec], cache := [], now := 1000
    nextUuid := 0, redisUp := false }

/-- A world like `exBase` whose user directory is empty (the user of `exRec`
has been deleted). -/
def exNoUser : AuthState :=
  { users := [], records := [exRec], cache := [], now := 1000
    nextUuid := 0, redisUp := true }

/-- An empty world (no users, no records, empty cache) at second 1000. -/
def exEmpty : AuthState :=
  { users := [], records := [], cache := [], now := 1000
    nextUuid := 0, redisUp := true }

/-- A world whose login-attempt counter for `a@x.com` already holds `"5"`
within a live lockout window. -/
def exLocked : AuthState :=
  { users := [exUser], records := [], nextUuid := 0, now := 1000, redisUp := true
    cache := [("login:attempts:a@x.com", { value := "5", expiresAt := some 1200 })] }

/-- The world reached from `exBase` by five consecutive failed logins for
`a@x.com` (wrong password) at second 1000. -/
def exAfter5 : AuthState :=
  runOps exCfg exBase (List.replicate 5 (.loginOp "a@x.com" "wrong" "d1"))

/-- The identity carried by the access token of a successful call: the
`(sub, email, role)` claims obtained by decoding the returned access token. -/
def accessIdentity (r : Except AuthError TokenResponse) :
    Option (String × String × String) :=
  match r with
  | .ok pair => (decodeAccess pair.accessToken).map (fun ac => (ac.sub, ac.email, ac.role))
  | .error _ => none

/-! ## Helper lemmas -/

/-- What a successful `findValidToken` lookup guarantees about the record. -/
theorem findValidToken_some {records : List RefreshTokenRecord} {now : Nat}
    {token : RefreshToken} {userId deviceId : String} {r : RefreshTokenRecord}
    (h : findValidToken records now token userId deviceId = some r) :
    r.token = token ∧ r.userId = userId ∧ r.deviceId = deviceId ∧
      r.isRevoked = false ∧ now < r.expiresAt := by
  have hp := List.find?_some h
  simpa using hp

/-- Reading back the key just stored. -/
theorem cacheLookup_cacheStore_self (c : List (String × CacheEntry)) (now : Nat)
    (k : String) (e : CacheEntry) :
    cacheLookup (cacheStore c k e) now k =
      match e.expiresAt with
      | none => some e
      | some t => if now < t then some e else none := by
  unfold cacheLookup cacheStore
  rw [List.find?_cons_of_pos _ (by simp)]

/-- A successful lookup means the entry was not expired. -/
theorem cacheLookup_some_alive {c : List (String × CacheEntry)} {now : Nat}
    {k : String} {e : CacheEntry} (h : cacheLookup c now k = some e) :
    e.expiresAt = none ∨ ∃ t, e.expiresAt = some t ∧ now < t := by
  unfold cacheLookup at h
  cases hf : c.find? (fun p => p.1 = k) with
  | none => rw [hf] at h; exact absurd h (by simp)
  | some p =>
    rw [hf] at h
    dsimp only at h
    cases hx : p.2.expiresAt with
    | none =>
      rw [hx] at h
      dsimp only at h
      left; rw [← Option.some_inj.mp h]; exact hx
    | some t =>
      rw [hx] at h
      dsimp only at h
      by_cases ht : now < t
      · rw [if_pos ht] at h
        right; exact ⟨t, by rw [← Option.some_inj.mp h]; exact hx, ht⟩
      · rw [if_neg ht] at h; exact absurd h (by simp)

/-- `validateUser` on the success path: found user, matching password. -/
theorem validateUser_success {s : AuthState} {email pass : String} {u : User}
    (hfind : findByEmail s.users email = some u)
    (hpw : validatePassword s.users u.id pass = true) :
    validateUser s email pass = (.ok u, s) := by
  unfold validateUser
  rw [hfind]
  simp [hpw]

/-- The caller-visible outcome of the failed-attempt path, given a reachable
cache: `AccountLocked` exactly when the read-back post-increment counter
reaches 5, else `InvalidCredentials`. -/
theorem recordFailedAttempt_fst (s : AuthState) (email : String)
    (hup : s.redisUp = true) :
    (recordFailedAttempt s email).1 =
      if jsGe (jsParseInt ((postIncrementAttempts s email).getD "0")) 5 then
        .error .accountLocked
      else .error .invalidCredentials := by
  unfold recordFailedAttempt postIncrementAttempts redisIncrement redisExpire redisGet
  cases hc : cacheLookup s.cache s.now ("login:attempts:" ++ email) with
  | none =>
    simp only [hup, if_true, hc, cacheLookup_cacheStore_self]
    simp [cacheLookup_cacheStore_self]
    split <;> simp_all
  | some e =>
    rcases cacheLookup_some_alive hc with halive | ⟨t, hx, ht⟩
    · simp only [hup, if_true, hc, cacheLookup_cacheStore_self, halive]
      simp [cacheLookup_cacheStore_self]
      split <;> simp_all
    · simp only [hup, if_true, hc, cacheLookup_cacheStore_self, hx]
      simp [cacheLookup_cacheStore_self, ht]
      split <;> simp_all

/-- Every record `revokeForDevice` leaves for its `(userId, deviceId)` is
revoked. -/
theorem mem_revokeForDevice_not_live {rs : List RefreshTokenRecord} {u d : String}
    {r : RefreshTokenRecord} (hr : r ∈ revokeForDevice rs u d) :
    ¬(r.userId = u ∧ r.deviceId = d ∧ r.isRevoked = false) := by
  unfold revokeForDevice at hr
  rcases List.mem_map.mp hr with ⟨r0, _, rfl⟩
  by_cases hm : r0.userId = u ∧ r0.deviceId = d
  · rw [if_pos hm]
    rintro ⟨-, -, hrev⟩
    exact absurd hrev (by simp)
  · rw [if_neg hm]
    rintro ⟨hu2, hd2, -⟩
    exact hm ⟨hu2, hd2⟩

/-- After `revokeForDevice`, no lookup for that `(userId, deviceId)` can
find a valid record. -/
theorem findValidToken_revokeForDevice (rs : List RefreshTokenRecord) (now : Nat)
    (tok : RefreshToken) (u d : String) :
    findValidToken (revokeForDevice rs u d) now tok u d = none := by
  apply List.find?_eq_none.mpr
  intro r hr
  simp only [decide_eq_true_eq]
  rintro ⟨-, hu, hd, hrev, -⟩
  exact mem_revokeForDevice_not_live hr ⟨hu, hd, hrev⟩

/-- A record-wise map that keeps keys and never un-revokes cannot increase
the number of live records of any device. -/
theorem atMostOneLive_map (f : RefreshTokenRecord → RefreshTokenRecord)
    (hu : ∀ r, (f r).userId = r.userId) (hd : ∀ r, (f r).deviceId = r.deviceId)
    (hrev : ∀ r, (f r).isRevoked = false → r.isRevoked = false)
    {rs : List RefreshTokenRecord} (h : atMostOneLive rs) :
    atMostOneLive (rs.map f) := by
  intro u d
  have hlen : (liveFor (rs.map f) u d).length ≤ (liveFor rs u d).length := by
    unfold liveFor
    rw [← List.countP_eq_length_filter, ← List.countP_eq_length_filter, List.countP_map]
    apply List.countP_mono_left
    intro r _ hp
    simp only [Function.comp, decide_eq_true_eq] at hp ⊢
    refine ⟨?_, ?_, hrev r hp.2.2⟩
    · rw [← hu r]; exact hp.1
    · rw [← hd r]; exact hp.2.1
  exact le_trans hlen (h u d)

/-- `revokeToken` preserves the single-live-record invariant. -/
theorem atMostOneLive_revokeToken {rs : List RefreshTokenRecord}
    (tok : RefreshToken) (h : atMostOneLive rs) :
    atMostOneLive (revokeToken rs tok) := by
  unfold revokeToken
  refine atMostOneLive_map _ ?_ ?_ ?_ h <;>
    intro r <;> by_cases hc : r.token = tok <;> simp [hc]

/-- `revokeForDevice` preserves the single-live-record invariant. -/
theorem atMostOneLive_revokeForDevice {rs : List RefreshTokenRecord}
    (u d : String) (h : atMostOneLive rs) :
    atMostOneLive (revokeForDevice rs u d) := by
  unfold revokeForDevice
  refine atMostOneLive_map _ ?_ ?_ ?_ h <;>
    intro r <;> by_cases hc : r.userId = u ∧ r.deviceId = d <;> simp [hc]

/-- `liveFor` distributes over append. -/
theorem liveFor_append (l1 l2 : List RefreshTokenRecord) (u d : String) :
    liveFor (l1 ++ l2) u d = liveFor l1 u d ++ liveFor l2 u d := by
  unfold liveFor
  exact List.filter_append ..

/-- The revoke-then-insert step of `generateRefreshToken` re-establishes the
invariant: revoking a device and appending one fresh record for it. -/
theorem atMostOneLive_revoke_insert {rs : List RefreshTokenRecord}
    (h : atMostOneLive rs) (r0 : RefreshTokenRecord) :
    atMostOneLive (revokeForDevice rs r0.userId r0.deviceId ++ [r0]) := by
  intro u d
  rw [liveFor_append, List.length_append]
  by_cases hm : r0.userId = u ∧ r0.deviceId = d
  · obtain ⟨hu0, hd0⟩ := hm
    subst hu0
    subst hd0
    have h1 : liveFor (revokeForDevice rs r0.userId r0.deviceId) r0.userId r0.deviceId
        = [] := by
      unfold liveFor
      rw [List.filter_eq_nil_iff]
      intro r hr
      simp only [decide_eq_true_eq]
      exact mem_revokeForDevice_not_live hr
    rw [h1]
    simp only [List.length_nil, Nat.zero_add]
    exact le_trans (List.length_filter_le _ _) (by simp)
  · have h2 : liveFor [r0] u d = [] := by
      unfold liveFor
      rw [List.filter_eq_nil_iff]
      intro r hr
      simp only [List.mem_singleton] at hr
      subst hr
      simp only [decide_eq_true_eq]
      rintro ⟨hu2, hd2, -⟩
      exact hm ⟨hu2, hd2⟩
    rw [h2]
    simp only [List.length_nil, Nat.add_zero]
    exact atMostOneLive_revokeForDevice _ _ h u d

/-- `generateTokens` preserves the invariant. -/
theorem atMostOneLive_generateTokens (cfg : Config) (s : AuthState) (user : User)
    (deviceId : String) (h : atMostOneLive s.records) :
    atMostOneLive ((generateTokens cfg s user deviceId).2).records := by
  unfold generateTokens generateRefreshToken
  dsimp only
  exact atMostOneLive_revoke_insert h
    { token := .signed
        { sub := user.id, deviceId := deviceId, iat := s.now,
          exp := ((s.now : Int) + msParseSeconds cfg.refreshTokenExpiry).toNat }
        cfg.refreshTokenSecret,
      userId := user.id, deviceId := deviceId,
      expiresAt := ((s.now : Int) + parseDurationToSeconds cfg.refreshTokenExpiry 604800).toNat,
      isRevoked := false }

/-- `redisIncrement` never touches the refresh-token store. -/
theorem redisIncrement_records (s : AuthState) (k : String) :
    ((redisIncrement s k).2).records = s.records := by
  unfold redisIncrement
  split
  · split <;> rfl
  · rfl

/-- `redisExpire` never touches the refresh-token store. -/
theorem redisExpire_records (s : AuthState) (k : String) (secs : Nat) :
    ((redisExpire s k secs).2).records = s.records := by
  unfold redisExpire
  split
  · split <;> rfl
  · rfl

/-- `redisSetEx` never touches the refresh-token store. -/
theorem redisSetEx_records (s : AuthState) (k v : String) (ttl : Nat) :
    ((redisSetEx s k v ttl).2).records = s.records := by
  unfold redisSetEx
  split <;> rfl

/-- The failed-attempt path only mutates the cache. -/
theorem recordFailedAttempt_records (s : AuthState) (email : String) :
    ((recordFailedAttempt s email).2).records = s.records := by
  unfold recordFailedAttempt
  split
  next e s1 heq =>
    have h1 := congrArg (fun x => x.2.records) heq
    dsimp only at h1
    rw [← h1, redisIncrement_records]
  next r s1 heq =>
    have h1 := congrArg (fun x => x.2.records) heq
    dsimp only at h1
    split
    next e s2 heq2 =>
      have h2 := congrArg (fun x => x.2.records) heq2
      dsimp only at h2
      rw [← h2, redisExpire_records, ← h1, redisIncrement_records]
    next b s2 heq2 =>
      have h2 := congrArg (fun x => x.2.records) heq2
      dsimp only at h2
      split
      · rw [← h2, redisExpire_records, ← h1, redisIncrement_records]
      · split <;>
          · dsimp only
            rw [← h2, redisExpire_records, ← h1, redisIncrement_records]

/-- `validateUser` only mutates the cache. -/
theorem validateUser_records (s : AuthState) (email pass : String) :
    ((validateUser s email pass).2).records = s.records := by
  unfold validateUser
  cases hf : findByEmail s.users email with
  | none => exact recordFailedAttempt_records s email
  | some u =>
    dsimp only
    split
    · rfl
    · exact recordFailedAttempt_records s email

/-- `usersCreate` only mutates the user directory. -/
theorem usersCreate_records (s : AuthState) (dto : RegisterData) :
    ((usersCreate s dto).2).records = s.records := by
  unfold usersCreate
  split <;> rfl

/-- `login` preserves the invariant. -/
theorem login_preserves_invariant (cfg : Config) (s : AuthState)
    (email pass deviceId : String) (h : atMostOneLive s.records) :
    atMostOneLive ((login cfg s email pass deviceId).2).records := by
  unfold login
  cases hv : validateUser s email pass with
  | mk r s1 =>
    have hrec : s1.records = s.records := by
      have h1 := validateUser_records s email pass
      rw [hv] at h1
      exact h1
    cases r with
    | error e => dsimp only; rw [hrec]; exact h
    | ok user =>
      dsimp only
      cases hg : generateTokens cfg s1 user deviceId with
      | mk p2 s2 =>
        dsimp only
        have h2 := atMostOneLive_generateTokens cfg s1 user deviceId
          (by rw [hrec]; exact h)
        rw [hg] at h2
        exact h2

/-- `register` preserves the invariant. -/
theorem register_preserves_invariant (cfg : Config) (s : AuthState)
    (dto : RegisterData) (h : atMostOneLive s.records) :
    atMostOneLive ((register cfg s dto).2).records := by
  unfold register
  cases hv : usersCreate s dto with
  | mk r s1 =>
    have hrec : s1.records = s.records := by
      have h1 := usersCreate_records s dto
      rw [hv] at h1
      exact h1
    cases r with
    | error e => dsimp only; rw [hrec]; exact h
    | ok user =>
      dsimp only
      cases hg : generateTokens cfg s1 user dto.deviceId with
      | mk p2 s2 =>
        dsimp only
        have h2 := atMostOneLive_generateTokens cfg s1 user dto.deviceId
          (by rw [hrec]; exact h)
        rw [hg] at h2
        exact h2

/-- `refreshTokens` preserves the invariant. -/
theorem refreshTokens_preserves_invariant (cfg : Config) (s : AuthState)
    (rt : RefreshToken) (deviceId : String) (h : atMostOneLive s.records) :
    atMostOneLive ((refreshTokens cfg s rt deviceId).2).records := by
  unfold refreshTokens
  cases hv : verifyRefresh cfg s.now rt with
  | none => exact h
  | some payload =>
    dsimp only
    by_cases hdev : payload.deviceId ≠ deviceId
    · rw [if_pos hdev]; exact h
    · rw [if_neg hdev]
      cases hst : findValidToken s.records s.now rt payload.sub deviceId with
      | none => exact h
      | some st =>
        dsimp only
        by_cases hexp : st.expiresAt < s.now
        · rw [if_pos hexp]; exact h
        · rw [if_neg hexp]
          cases hu : usersFindOne s.users payload.sub with
          | error e => exact h
          | ok user =>
            dsimp only
            cases hg : generateTokens cfg { s with records := revokeToken s.records rt }
                user deviceId with
            | mk p2 s2 =>
              dsimp only
              have h2 := atMostOneLive_generateTokens cfg
                { s with records := revokeToken s.records rt } user deviceId
                (atMostOneLive_revokeToken rt h)
              rw [hg] at h2
              exact h2

/-- `logout` preserves the invariant. -/
theorem logout_preserves_invariant (s : AuthState) (userId : String)
    (tok : AccessToken) (deviceId : String) (h : atMostOneLive s.records) :
    atMostOneLive ((logout s userId tok deviceId).2).records := by
  unfold logout revokeRefreshTokensForDevice
  cases hd : decodeAccess tok with
  | none => exact h
  | some c =>
    dsimp only
    by_cases hcond : 0 < (if c.exp ≠ 0 then (c.exp : Int) - (s.now : Int) else 0) ∧
        c.jti ≠ ""
    · rw [if_pos hcond]
      cases hset : redisSetEx s ("token:blacklisted:" ++ c.jti)
          "1" (if c.exp ≠ 0 then (c.exp : Int) - (s.now : Int) else 0).toNat with
      | mk r s1 =>
        have hrec : s1.records = s.records := by
          have h1 := redisSetEx_records s ("token:blacklisted:" ++ c.jti)
            "1" (if c.exp ≠ 0 then (c.exp : Int) - (s.now : Int) else 0).toNat
          rw [hset] at h1
          exact h1
        cases r with
        | error e => rw [hrec]; exact h
        | ok u =>
          dsimp only
          rw [hrec]
          exact atMostOneLive_revokeForDevice userId deviceId h
    · rw [if_neg hcond]
      exact atMostOneLive_revokeForDevice userId deviceId h

/-- Every public call preserves the invariant. -/
theorem applyOp_preserves_invariant (cfg : Config) (s : AuthState) (op : OpCall)
    (h : atMostOneLive s.records) : atMostOneLive ((applyOp cfg s op).records) := by
  cases op with
  | loginOp email pass deviceId => exact login_preserves_invariant cfg s email pass deviceId h
  | registerOp dto => exact register_preserves_invariant cfg s dto h
  | refreshOp token deviceId => exact refreshTokens_preserves_invariant cfg s token deviceId h
  | logoutOp userId token deviceId => exact logout_preserves_invariant s userId token deviceId h

/-! ## Claim theorems -/

/-- C4: the claim says `logout` completes without raising even for a garbled
access token and still revokes the device session.  The code reads
`decoded.exp` after `jwt.decode` returned `null`, raising a `TypeError`
that propagates before any revocation: on a garbled token, `logout` fails
and the device's record stays non-revoked.  (`isTokenBlacklisted` guards the
same read with `decoded?.jti` and a try/catch, and the spec calls logout
"intentionally tolerant", so the unguarded read is a slip in the code.) -/
theorem c4_garbled_logout_raises_before_revocation :
    logout exBase "u1" (.malformed "garbage") "d1" = (.error .jsTypeError, exBase) ∧
    (logout exBase "u1" (.malformed "garbage") "d1").2.records = [exRec] ∧
    exRec.isRevoked = false := by
  constructor
  · rfl
  · exact ⟨rfl, rfl⟩

/-- C5: the claim says a blacklist-write failure is never propagated and the
session revocation still happens.  The `setEx` call in `logout` is an
unguarded `await`: when the cache is unreachable the error propagates to the
caller and the revocation below it is never performed — the state is
returned unchanged, with the device's record still live. -/
theorem c5_blacklist_write_failure_propagates :
    logout exBaseDown "u1" exAccess "d1" = (.error .cacheError, exBaseDown) ∧
    (logout exBaseDown "u1" exAccess "d1").2.records = [exRec] ∧
    exRec.isRevoked = false := by
  refine ⟨?_, ?_, rfl⟩ <;> decide

/-- C9: `parseDurationToSeconds` maps a string suffixed `s`/`m`/`h`/`d`/`w`
whose numeric part parses to `v` to `v` times 1, 60, 3600, 86400, 604800
respectively; an empty string, an unparsable numeric part, or an unknown
unit yields the caller-supplied default; and `expiresIn` of an issued pair
is this parse of the configured access expiry with default 900. -/
theorem c9_parse_duration_to_seconds :
    (∀ s dflt v, s ≠ "" → jsParseInt (s.dropRight 1) = some v →
      (s.takeRight 1 = "s" → parseDurationToSeconds s dflt = v * 1) ∧
      (s.takeRight 1 = "m" → parseDurationToSeconds s dflt = v * 60) ∧
      (s.takeRight 1 = "h" → parseDurationToSeconds s dflt = v * 3600) ∧
      (s.takeRight 1 = "d" → parseDurationToSeconds s dflt = v * 86400) ∧
      (s.takeRight 1 = "w" → parseDurationToSeconds s dflt = v * 604800)) ∧
    (∀ dflt, parseDurationToSeconds "" dflt = dflt) ∧
    (∀ s dflt, s ≠ "" → jsParseInt (s.dropRight 1) = none →
      parseDurationToSeconds s dflt = dflt) ∧
    (∀ s dflt v, s ≠ "" → jsParseInt (s.dropRight 1) = some v →
      s.takeRight 1 ≠ "s" → s.takeRight 1 ≠ "m" → s.takeRight 1 ≠ "h" →
      s.takeRight 1 ≠ "d" → s.takeRight 1 ≠ "w" →
      parseDurationToSeconds s dflt = dflt) ∧
    (∀ cfg s user deviceId, (generateTokens cfg s user deviceId).1.expiresIn =
      parseDurationToSeconds cfg.accessTokenExpiry 900) := by
  refine ⟨?_, ?_, ?_, ?_, ?_⟩
  · intro s dflt v hne hv
    refine ⟨fun hu => ?_, fun hu => ?_, fun hu => ?_, fun hu => ?_, fun hu => ?_⟩ <;>
      · simp [parseDurationToSeconds, hne, hv, hu]
        try ring
  · intro dflt; rfl
  · intro s dflt hne hv
    simp only [parseDurationToSeconds, hv, if_neg hne]
  · intro s dflt v hne hv h1 h2 h3 h4 h5
    simp [parseDurationToSeconds, hne, hv, h1, h2, h3, h4, h5]
  · intro cfg s user deviceId
    rfl

/-- C9 witness: the conjuncts evaluated at the configured defaults
(`15m` parses to 900 seconds) and at fall-back inputs. -/
theorem c9_witness :
    parseDurationToSeconds "15m" 900 = 15 * 60 ∧
    parseDurationToSeconds "" 42 = 42 ∧
    parseDurationToSeconds "xm" 42 = 42 ∧
    parseDurationToSeconds "10q" 42 = 42 ∧
    (generateTokens exCfg exBase exUser "d1").1.expiresIn =
      parseDurationToSeconds "15m" 900 := by
  have h := c9_parse_duration_to_seconds
  exact ⟨(h.1 "15m" 900 15 (by decide) (by decide)).2.1 (by decide),
    h.2.1 42,
    h.2.2.1 "xm" 42 (by decide) (by decide),
    h.2.2.2.1 "10q" 42 10 (by decide) (by decide) (by decide) (by decide)
      (by decide) (by decide) (by decide),
    h.2.2.2.2 exCfg exBase exUser "d1"⟩

/-- C10: the claim says a refresh whose token verifies, matches the device,
and has a live stored record fails with `InvalidToken` when the user no
longer exists.  `UsersService.findOne` throws `NotFoundException` for a
missing user, so the call fails with that error instead (the `if (!user)`
guard in `refreshTokens` is unreachable); the state is returned unchanged,
so no pair is issued and the stored record stays non-revoked. -/
theorem c10_missing_user_fails_notfound (cfg : Config) (s : AuthState)
    (rt : RefreshToken) (deviceId : String) (payload : RefreshClaims)
    (st : RefreshTokenRecord)
    (hv : verifyRefresh cfg s.now rt = some payload)
    (hdev : payload.deviceId = deviceId)
    (hst : findValidToken s.records s.now rt payload.sub deviceId = some st)
    (hu : usersFindOne s.users payload.sub = .error .notFound) :
    refreshTokens cfg s rt deviceId = (.error .notFound, s) := by
  have hexp := (findValidToken_some hst).2.2.2.2
  simp only [refreshTokens, hv, hdev, hst, hu, ne_eq, not_true_eq_false,
    if_false, ite_not]
  rw [if_neg (by omega)]

/-- C10 witness: the amended behavior at a concrete world where the user of
a live, verifiable record has been deleted. -/
theorem c10_witness :
    refreshTokens exCfg exNoUser exRt "d1" = (.error .notFound, exNoUser) :=
  c10_missing_user_fails_notfound exCfg exNoUser exRt "d1"
    { sub := "u1", deviceId := "d1", iat := 1000, exp := 605800 } exRec
    (by decide) (by decide) (by decide) (by decide)

/-- C10 counterexample: at that world, the result is `NotFound`, not the
`InvalidToken` the claim states. -/
theorem c10_counterexample :
    (refreshTokens exCfg exNoUser exRt "d1").1 = .error .notFound ∧
    (refreshTokens exCfg exNoUser exRt "d1").1 ≠ .error .invalidToken := by
  constructor <;> decide

/-- C8 counterexample: the stored email is lowercase and the password is
correct (the exact-case login succeeds), yet supplying the same email with
one letter upcased fails with `InvalidCredentials` — the lookup is **not**
case-insensitive. -/
theorem c8_counterexample :
    exUser.email = "a@x.com" ∧
    succeeded (login exCfg exBase "a@x.com" "Password1" "d1").1 = true ∧
    (login exCfg exBase "A@x.com" "Password1" "d1").1 = .error .invalidCredentials := by
  refine ⟨rfl, ?_, ?_⟩ <;> decide

/-- C8 amended: the login-time lookup is an exact match on the supplied
email (so only the exact stored — lowercase — spelling logs in), and for the
exact email with a matching password, `login` succeeds with an access token
decoding to that user's id/email/role. -/
theorem c8_login_lookup_exact_match :
    (∀ users email u, findByEmail users email = some u → u.email = email) ∧
    (∀ cfg s email pass deviceId u,
      findByEmail s.users email = some u →
      validatePassword s.users u.id pass = true →
      accessIdentity (login cfg s email pass deviceId).1 =
        some (u.id, u.email, u.role)) := by
  constructor
  · intro users email u h
    have hp := List.find?_some h
    simpa using hp
  · intro cfg s email pass deviceId u hfind hpw
    simp only [login, validateUser_success hfind hpw]
    rfl

/-- C8 witness: the amended statement at the concrete lowercase-stored user
with the exact email spelling. -/
theorem c8_witness :
    exUser.email = "a@x.com" ∧
    accessIdentity (login exCfg exBase "a@x.com" "Password1" "d1").1 =
      some ("u1", "a@x.com", "user") := by
  constructor
  · exact c8_login_lookup_exact_match.1 [exUser] "a@x.com" exUser (by decide)
  · exact c8_login_lookup_exact_match.2 exCfg exBase "a@x.com" "Password1" "d1" exUser
      (by decide) (by decide)

/-- C7: two failed login attempts whose post-increment counter stays below
the threshold — one for an unknown email, one for a known email with a wrong
password — both fail with the identical `InvalidCredentials` error, so the
caller cannot tell user absence from password mismatch. -/
theorem c7_failure_paths_indistinguishable (s1 s2 : AuthState)
    (e1 e2 p1 p2 : String) (u : User)
    (h1up : s1.redisUp = true) (h2up : s2.redisUp = true)
    (h1find : findByEmail s1.users e1 = none)
    (h2find : findByEmail s2.users e2 = some u)
    (h2pw : validatePassword s2.users u.id p2 = false)
    (h1cnt : jsGe (jsParseInt ((postIncrementAttempts s1 e1).getD "0")) 5 = false)
    (h2cnt : jsGe (jsParseInt ((postIncrementAttempts s2 e2).getD "0")) 5 = false) :
    (validateUser s1 e1 p1).1 = .error .invalidCredentials ∧
    (validateUser s2 e2 p2).1 = (validateUser s1 e1 p1).1 := by
  have hrun1 : (validateUser s1 e1 p1).1 = .error .invalidCredentials := by
    unfold validateUser
    rw [h1find]
    rw [recordFailedAttempt_fst s1 e1 h1up, if_neg (by simp [h1cnt])]
  have hrun2 : (validateUser s2 e2 p2).1 = .error .invalidCredentials := by
    unfold validateUser
    rw [h2find]
    dsimp only
    rw [if_neg (by simp [h2pw])]
    rw [recordFailedAttempt_fst s2 e2 h2up, if_neg (by simp [h2cnt])]
  exact ⟨hrun1, by rw [hrun1, hrun2]⟩

/-- C7 witness: an unknown-email attempt in an empty world and a
wrong-password attempt against the stored user produce the same
`InvalidCredentials` failure. -/
theorem c7_witness :
    (validateUser exEmpty "ghost@x.com" "pw").1 = .error .invalidCredentials ∧
    (validateUser exBase "a@x.com" "wrongpw").1 =
      (validateUser exEmpty "ghost@x.com" "pw").1 :=
  c7_failure_paths_indistinguishable exEmpty exBase "ghost@x.com" "a@x.com" "pw" "wrongpw"
    exUser (by decide) (by decide) (by decide) (by decide) (by decide)
    (by decide) (by decide)

/-- C2 counterexample: after five consecutive failed logins for `a@x.com`
within the window (the counter holds `"5"`), a 6th attempt with the
**correct** password does not fail with `AccountLocked` — it succeeds.  The
lockout check lives only on the failure path of `validateUser`. -/
theorem c2_counterexample :
    exAfter5.cache =
      [("login:attempts:a@x.com", { value := "5", expiresAt := some 1300 })] ∧
    (login exCfg exAfter5 "a@x.com" "Password1" "d1").1 ≠ .error .accountLocked ∧
    succeeded (login exCfg exAfter5 "a@x.com" "Password1" "d1").1 = true := by
  refine ⟨?_, ?_, ?_⟩ <;> decide

/-- C2 amended: (1) once the live counter for an email holds `"5"`, a
further **failed** attempt for it fails with `AccountLocked`; (2) a
correct-password attempt succeeds regardless of the counter (the code never
consults it on the success path); (3) once the counter entry has expired
(window elapsed), a failed attempt is back to `InvalidCredentials`. -/
theorem c2_lockout_on_failure_path_only :
    (∀ s email pass e, s.redisUp = true →
      ((findByEmail s.users email).all
        (fun u => !validatePassword s.users u.id pass)) = true →
      cacheLookup s.cache s.now ("login:attempts:" ++ email) = some e →
      e.value = "5" →
      (validateUser s email pass).1 = .error .accountLocked) ∧
    (∀ s email pass u,
      findByEmail s.users email = some u →
      validatePassword s.users u.id pass = true →
      validateUser s email pass = (.ok u, s)) ∧
    (∀ s email pass, s.redisUp = true →
      ((findByEmail s.users email).all
        (fun u => !validatePassword s.users u.id pass)) = true →
      cacheLookup s.cache s.now ("login:attempts:" ++ email) = none →
      (validateUser s email pass).1 = .error .invalidCredentials) := by
  refine ⟨?_, ?_, ?_⟩
  · intro s email pass e hup hfail hc he
    have h6 : postIncrementAttempts s email = some "6" := by
      unfold postIncrementAttempts redisIncrement redisExpire
      rcases cacheLookup_some_alive hc with hal | ⟨t, hal, ht⟩
      · simp [hup, hc, he, cacheLookup_cacheStore_self, hal]
        decide
      · simp [hup, hc, he, cacheLookup_cacheStore_self, hal, ht]
        decide
    have hlock : (recordFailedAttempt s email).1 = .error .accountLocked := by
      rw [recordFailedAttempt_fst s email hup, h6]
      rw [if_pos (by decide)]
    unfold validateUser
    cases hf : findByEmail s.users email with
    | none => exact hlock
    | some u =>
      rw [hf] at hfail
      simp only [Option.all] at hfail
      dsimp only
      rw [if_neg (by simp_all)]
      exact hlock
  · intro s email pass u hfind hpw
    exact validateUser_success hfind hpw
  · intro s email pass hup hfail hc
    have h1 : postIncrementAttempts s email = some "1" := by
      unfold postIncrementAttempts redisIncrement redisExpire
      simp [hup, hc, cacheLookup_cacheStore_self]
    have hinv : (recordFailedAttempt s email).1 = .error .invalidCredentials := by
      rw [recordFailedAttempt_fst s email hup, h1]
      rw [if_neg (by decide)]
    unfold validateUser
    cases hf : findByEmail s.users email with
    | none => exact hinv
    | some u =>
      rw [hf] at hfail
      simp only [Option.all] at hfail
      dsimp only
      rw [if_neg (by simp_all)]
      exact hinv

/-- C2 witness: the three amended behaviors at concrete worlds — a locked
counter with a failed attempt, a correct password with a stale counter
absent, and a fresh window after expiry. -/
theorem c2_witness :
    (validateUser exLocked "a@x.com" "badpw").1 = .error .accountLocked ∧
    validateUser exBase "a@x.com" "Password1" = (.ok exUser, exBase) ∧
    (validateUser exBase "a@x.com" "badpw").1 = .error .invalidCredentials :=
  ⟨c2_lockout_on_failure_path_only.1 exLocked "a@x.com" "badpw"
      { value := "5", expiresAt := some 1200 } (by decide) (by decide) (by decide) (by decide),
   c2_lockout_on_failure_path_only.2.1 exBase "a@x.com" "Password1" exUser
      (by decide) (by decide),
   c2_lockout_on_failure_path_only.2.2 exBase "a@x.com" "badpw"
      (by decide) (by decide) (by decide)⟩

/-- C6: after `logout` of an access token carrying a `jti` and a future
`exp`, the token reads as blacklisted at every instant before its natural
expiry (and no longer after it), and any refresh token naming that user —
in particular the device's now-revoked one — fails `refreshTokens` for that
device with `InvalidToken`. -/
theorem c6_logout_blacklists_and_revokes (cfg : Config) (s : AuthState)
    (userId deviceId : String) (c : AccessClaims) (sec : String)
    (hup : s.redisUp = true) (hjti : c.jti ≠ "") (hexp : s.now < c.exp) :
    (logout s userId (.signed c sec) deviceId).1 = .ok () ∧
    (∀ t, t < c.exp →
      isTokenBlacklisted { (logout s userId (.signed c sec) deviceId).2 with now := t }
        (.signed c sec) = true) ∧
    (∀ t, c.exp ≤ t →
      isTokenBlacklisted { (logout s userId (.signed c sec) deviceId).2 with now := t }
        (.signed c sec) = false) ∧
    (∀ rc rsec, rc.sub = userId →
      (refreshTokens cfg (logout s userId (.signed c sec) deviceId).2
        (.signed rc rsec) deviceId).1 = .error .invalidToken) := by
  have httl : s.now + (((c.exp : Int) - (s.now : Int)).toNat) = c.exp := by omega
  have hlog : logout s userId (.signed c sec) deviceId =
      (.ok (), { s with
        cache := cacheStore s.cache ("token:blacklisted:" ++ c.jti)
          { value := "1", expiresAt := some c.exp }
        records := revokeForDevice s.records userId deviceId }) := by
    unfold logout decodeAccess revokeRefreshTokensForDevice
    dsimp only
    rw [if_pos (by omega : c.exp ≠ 0)]
    rw [if_pos (⟨by omega, hjti⟩ : (0 : Int) < (c.exp : Int) - (s.now : Int) ∧ c.jti ≠ "")]
    unfold redisSetEx
    rw [if_pos hup]
    dsimp only
    rw [httl]
  refine ⟨by rw [hlog], ?_, ?_, ?_⟩
  · intro t ht
    rw [hlog]
    simp only [isTokenBlacklisted, redisGet]
    rw [if_neg hjti]
    simp only [hup, if_true, cacheLookup_cacheStore_self]
    rw [if_pos ht]
    simp
  · intro t ht
    rw [hlog]
    simp only [isTokenBlacklisted, redisGet]
    rw [if_neg hjti]
    simp only [hup, if_true, cacheLookup_cacheStore_self]
    rw [if_neg (by omega)]
    simp
  · intro rc rsec hsub
    rw [hlog]
    unfold refreshTokens
    cases hv : verifyRefresh cfg s.now (.signed rc rsec) with
    | none => rfl
    | some payload =>
      have hprc : payload = rc := by
        unfold verifyRefresh at hv
        dsimp only at hv
        by_cases hcond : rsec = cfg.refreshTokenSecret ∧ s.now < rc.exp
        · rw [if_pos hcond] at hv
          exact (Option.some_inj.mp hv).symm
        · rw [if_neg hcond] at hv
          exact absurd hv (by simp)
      subst hprc
      dsimp only
      by_cases hdev : payload.deviceId ≠ deviceId
      · rw [if_pos hdev]
      · rw [if_neg hdev]
        rw [hsub, findValidToken_revokeForDevice]

/-- C6 witness: at the concrete world, logout succeeds, the access token is
blacklisted at second 1899 but not at its expiry 1900, and replaying the
device's refresh token fails with `InvalidToken`. -/
theorem c6_witness :
    (logout exBase "u1" exAccess "d1").1 = .ok () ∧
    isTokenBlacklisted { (logout exBase "u1" exAccess "d1").2 with now := 1899 }
      exAccess = true ∧
    isTokenBlacklisted { (logout exBase "u1" exAccess "d1").2 with now := 1900 }
      exAccess = false ∧
    (refreshTokens exCfg (logout exBase "u1" exAccess "d1").2 exRt "d1").1 =
      .error .invalidToken := by
  have h := c6_logout_blacklists_and_revokes exCfg exBase "u1" "d1"
    { sub := "u1", email := "a@x.com", role := "user", jti := "j1", iat := 1000, exp := 1900 }
    "access-secret" (by decide) (by decide) (by decide)
  exact ⟨h.1, h.2.1 1899 (by decide), h.2.2.1 1900 (by decide),
    h.2.2.2 { sub := "u1", deviceId := "d1", iat := 1000, exp := 605800 }
      "refresh-secret" rfl⟩

/-- C3: at most one non-revoked record exists per `(userId, deviceId)` after
any sequence of login, register, refresh, and logout calls: every issuance
first revokes all records of the device and then persists exactly one new
non-revoked record, and no other path adds records. -/
theorem c3_at_most_one_live_per_device (cfg : Config) (s : AuthState)
    (ops : List OpCall) (h : atMostOneLive s.records) :
    atMostOneLive ((runOps cfg s ops).records) := by
  induction ops generalizing s with
  | nil => exact h
  | cons op rest ih => exact ih (applyOp cfg s op) (applyOp_preserves_invariant cfg s op h)

/-- C3 witness: the invariant holds after a concrete register / login /
refresh / logout sequence from the empty world. -/
theorem c3_witness :
    atMostOneLive ((runOps exCfg exEmpty
      [.registerOp { email := "B@x.com", name := "Bob", password := "Secret1", deviceId := "d2" },
       .loginOp "a@x.com" "Password1" "d1",
       .refreshOp exRt "d1",
       .logoutOp "u1" exAccess "d1"]).records) :=
  c3_at_most_one_live_per_device exCfg exEmpty _ (by intro u d; simp [liveFor, exEmpty])

/-- C1 counterexample: a rotation performed in the same second the original
refresh token was signed re-signs the identical payload (`{sub, deviceId}`
plus the same `iat`/`exp`), so the freshly stored record carries the *same*
token value and a second call with the original token succeeds instead of
failing with `InvalidToken`. -/
theorem c1_counterexample :
    succeeded (refreshTokens exCfg exBase exRt "d1").1 = true ∧
    ((refreshTokens exCfg exBase exRt "d1").1.toOption.map
      (fun p => p.refreshToken)) = some exRt ∧
    (refreshTokens exCfg (refreshTokens exCfg exBase exRt "d1").2 exRt "d1").1 ≠
      .error .invalidToken ∧
    succeeded (refreshTokens exCfg (refreshTokens exCfg exBase exRt "d1").2 exRt "d1").1
      = true := by
  refine ⟨?_, ?_, ?_, ?_⟩ <;> decide

/-- C1 amended: when a successful rotation issues a refresh token distinct
from the rotated one (which holds whenever the new signature's `iat` second
differs from the original's), the original token is single-use: the second
call with it fails with `InvalidToken`, because the old record was revoked
(`revokeToken` then `revokeForDevice`) and the only live record of the
device carries the new token value. -/
theorem c1_rotated_token_single_use (cfg : Config) (s0 s1 : AuthState)
    (rt : RefreshToken) (deviceId : String) (pair : TokenResponse)
    (hrun : refreshTokens cfg s0 rt deviceId = (.ok pair, s1))
    (hne : pair.refreshToken ≠ rt) :
    (refreshTokens cfg s1 rt deviceId).1 = .error .invalidToken := by
  unfold refreshTokens at hrun
  cases hv : verifyRefresh cfg s0.now rt with
  | none => rw [hv] at hrun; exact absurd hrun (by simp)
  | some payload =>
    rw [hv] at hrun
    dsimp only at hrun
    by_cases hdev : payload.deviceId ≠ deviceId
    · rw [if_pos hdev] at hrun; exact absurd hrun (by simp)
    · rw [if_neg hdev] at hrun
      cases hst : findValidToken s0.records s0.now rt payload.sub deviceId with
      | none => rw [hst] at hrun; exact absurd hrun (by simp)
      | some st =>
        rw [hst] at hrun
        dsimp only at hrun
        by_cases hexp2 : st.expiresAt < s0.now
        · rw [if_pos hexp2] at hrun; exact absurd hrun (by simp)
        · rw [if_neg hexp2] at hrun
          cases hu : usersFindOne s0.users payload.sub with
          | error e => rw [hu] at hrun; exact absurd hrun (by simp)
          | ok user =>
            rw [hu] at hrun
            dsimp only at hrun
            have husr : user.id = payload.sub := by
              unfold usersFindOne at hu
              cases hf : s0.users.find? (fun u => u.id = payload.sub) with
              | none => rw [hf] at hu; exact absurd hu (by simp)
              | some u0 =>
                rw [hf] at hu
                have h1 : u0 = user := by
                  have := Option.some_inj.mp (by simpa using hu)
                  simpa using this
                subst h1
                simpa using List.find?_some hf
            unfold generateTokens generateRefreshToken at hrun
            dsimp only at hrun
            simp only [Prod.mk.injEq, Except.ok.injEq] at hrun
            obtain ⟨hp, hs⟩ := hrun
            -- the new refresh token value
            have hnewne : (RefreshToken.signed
                { sub := user.id, deviceId := deviceId, iat := s0.now,
                  exp := ((s0.now : Int) + msParseSeconds cfg.refreshTokenExpiry).toNat }
                cfg.refreshTokenSecret) ≠ rt := by
              intro hcontra
              apply hne
              rw [← hp]
              exact hcontra
            unfold refreshTokens
            rw [← hs]
            dsimp only
            rw [hv]
            dsimp only
            rw [if_neg hdev]
            have hfind : findValidToken
                (revokeForDevice (revokeToken s0.records rt) user.id deviceId ++
                  [{ token := RefreshToken.signed
                      { sub := user.id, deviceId := deviceId, iat := s0.now,
                        exp := ((s0.now : Int) + msParseSeconds cfg.refreshTokenExpiry).toNat }
                      cfg.refreshTokenSecret,
                     userId := user.id, deviceId := deviceId,
                     expiresAt := ((s0.now : Int) +
                       parseDurationToSeconds cfg.refreshTokenExpiry 604800).toNat,
                     isRevoked := false }])
                s0.now rt payload.sub deviceId = none := by
              apply List.find?_eq_none.mpr
              intro r hr
              simp only [decide_eq_true_eq]
              rcases List.mem_append.mp hr with hr1 | hr2
              · rintro ⟨-, hu2, hd2, hrev2, -⟩
                exact mem_revokeForDevice_not_live hr1 ⟨by rw [hu2, ← husr], hd2, hrev2⟩
              · simp only [List.mem_singleton] at hr2
                subst hr2
                rintro ⟨htok, -, -, -, -⟩
                exact hnewne htok
            rw [hfind]

/-- C1 witness: with the original token signed 10 seconds before the
rotation, the issued token differs and the replay of the original fails
with `InvalidToken`. -/
theorem c1_witness :
    (refreshTokens exCfg
      (refreshTokens exCfg
        { exBase with records := [exRecEarly] } exRtEarly "d1").2
      exRtEarly "d1").1 = .error .invalidToken :=
  c1_rotated_token_single_use exCfg { exBase with records := [exRecEarly] }
    (refreshTokens exCfg { exBase with records := [exRecEarly] } exRtEarly "d1").2
    exRtEarly "d1"
    { accessToken := .signed
        { sub := "u1", email := "a@x.com", role := "user", jti := "uuid-0"
          iat := 1000, exp := 1900 } "access-secret",
      refreshToken := exRt, expiresIn := 900, tokenType := "Bearer" }
    (by decide) (by decide)

end AuthCore
